import Mathlib

/-!
Shallow embedding of `catboost/python-package/catboost/datasets.py`.

The module fetches, caches and parses tabular datasets.  Its effectful
primitives are modelled by explicit state passing over a `World` (a file
store, a directory store and the current working directory) together with an
event trace recording the observable actions (network fetches, checksum
computations, archive extraction, temp-file management, CSV parsing).
External library behaviour is a parameter:
  * `hash : Content → String` stands for the MD5 hex digest (`hashlib.md5`);
  * `net : String → Option Content` stands for `urlretrieve` — `some c`
    means the transfer from that URL succeeds and writes content `c` to the
    destination, `none` means the transfer raises a network/IO error;
  * `tar : World → String → World × Except Unit Unit` stands for
    `tarfile.open(...)` + `extractall()` — an arbitrary state transformer
    that may fail;
  * `MakedirsSpec` stands for the outcome of one `os.makedirs` call.

A faithfulness note on error handling in `_cached_download`: the Python
source catches transfer errors with `except (urllib.URLError, IOError)`,
but the module only runs `import urllib` / `from urllib.request import
urlretrieve` (or `from urllib import urlretrieve` on Python 2), and neither
`urllib` module has an attribute `URLError` (it lives in `urllib.error`,
resp. `urllib2`).  Evaluating the except clause therefore raises
`AttributeError` as soon as any transfer fails, so the handler body and the
`for`/`else` branch are unreachable for a non-empty URL list.  The
embedding reproduces this: a failed transfer aborts the whole call with
`DlErr.attributeError`.
-/

namespace CatboostDatasets

/-- Bytes of a file, as stored on disk or delivered by a transfer. -/
abbrev Content := List Nat

/-- Observable events of one call: network fetches, checksum computations,
directory creation, temp-file management, extraction and parsing. -/
inductive Ev where
  | netFetch (u : String)
  | md5calc (p : String)
  | mkdirEv (p : String)
  | mkstempEv (p : String)
  | extractEv (src dst : String)
  | removeEv (p : String)
  | parseEv (p : String)
deriving DecidableEq, Repr

/-- Filesystem-plus-process state threaded through the embedded functions. -/
structure World where
  files : String → Option Content
  dirs : String → Bool
  cwd : String

/-- Write content `c` at path `p` (what a successful `urlretrieve`/`mkstemp`
does to the file store). -/
def writeFile (w : World) (p : String) (c : Content) : World :=
  { w with files := fun q => if q = p then some c else w.files q }

/-- Remove the file at path `p` (`os.remove`). -/
def removeFile (w : World) (p : String) : World :=
  { w with files := fun q => if q = p then none else w.files q }

/-- Mark path `p` as an existing directory. -/
def addDir (w : World) (p : String) : World :=
  { w with dirs := fun q => if q = p then true else w.dirs q }

/-- Truth value of `os.path.exists p` in world `w` (true for files and for
directories). -/
def pathExists (w : World) (p : String) : Bool :=
  (w.files p).isSome || w.dirs p

/-- Embedding of `os.path.join(a, b)` for the POSIX paths used here. -/
def joinPath (a b : String) : String := a ++ "/" ++ b

/-- Embedding of `_calc_md5`: digest of the file at `path`, `none` when the
file is absent (Python would raise `IOError` from `open`). -/
def _calc_md5 (hash : Content → String) (w : World) (path : String) :
    Option String :=
  (w.files path).map hash

/-- Embedding of `_extract(src_file, dst_dir)`.  `tar` is the combined
`tarfile.open` + `extractall` primitive, run with `dst_dir` as the current
working directory; it may transform the world arbitrarily and may fail.
`os.chdir(dst_dir)` itself fails when `dst_dir` is not a directory; that
happens before the `try`, so the working directory is then untouched.  The
`finally` clause restores the saved working directory on both exits of the
`try`. -/
def _extract (tar : World → String → World × Except Unit Unit)
    (w : World) (src_file : String) (dst_dir : String) :
    World × List Ev × Except Unit Unit :=
  let cur_dir := w.cwd
  if w.dirs dst_dir then
    let stepped := tar { w with cwd := dst_dir } src_file
    ({ stepped.1 with cwd := cur_dir }, [Ev.extractEv src_file dst_dir],
      stepped.2)
  else
    (w, [], Except.error ())

/-- Outcome of one `os.makedirs(path)` call: `result = none` means it
succeeded (and created the directory); `result = some e` means it raised
`OSError` with payload `e`, and `isDirAfter` is the value of
`os.path.isdir(path)` observed right after the failure. -/
structure MakedirsSpec where
  result : Option Nat
  isDirAfter : Bool

/-- Embedding of `_ensure_dir_exists(path)`: swallow the `OSError` when the
path is a directory afterwards, re-raise the same error otherwise. -/
def _ensure_dir_exists (mk : MakedirsSpec) (w : World) (path : String) :
    World × List Ev × Except Nat Unit :=
  match mk.result with
  | none => (addDir w path, [Ev.mkdirEv path], Except.ok ())
  | some e =>
      if mk.isDirAfter then (addDir w path, [Ev.mkdirEv path], Except.ok ())
      else (w, [Ev.mkdirEv path], Except.error e)

/-- Argument shape of `_cached_download`'s `url` parameter: either a bare
string or a list/tuple of mirror URLs. -/
inductive UrlArg where
  | single (u : String)
  | mirrors (urls : List String)

/-- Embedding of the normalisation
`urls = url if isinstance(url, list) or isinstance(url, tuple) else (url, )`. -/
def normalizeUrl : UrlArg → List String
  | UrlArg.single u => [u]
  | UrlArg.mirrors us => us

/-- Errors with which `_cached_download` can abort. -/
inductive DlErr where
  /-- Python `AttributeError`: a transfer failed and evaluating the handler clause
  `except (urllib.URLError, IOError)` raised, because `urllib` has no
  attribute `URLError`. -/
  | attributeError
  /-- The `RuntimeError('failed to download from %s', urls)` raised by the
  `for`/`else` branch (reachable only with an empty URL list). -/
  | runtimeTransferError (urls : List String)
  /-- The `RuntimeError` naming the expected and the actual MD5 digest. -/
  | runtimeMd5Error (expected got : String)
deriving DecidableEq, Repr

/-- Result of the `for u in urls:` download loop of `_cached_download`.  The
first URL whose transfer succeeds breaks the loop with its content; the
first URL whose transfer fails aborts with `AttributeError` (see the module
docstring), so later URLs are never consulted; an empty list falls through
to the `else` branch. -/
inductive LoopRes where
  | success (c : Content)
  | attrError
  | exhausted
deriving Repr

/-- The download loop itself; returns the fetch events and the loop result.
The tail of the list is intentionally unused in the failure branch: the
`AttributeError` aborts the loop before the next iteration. -/
def tryUrls (net : String → Option Content) : List String → List Ev × LoopRes
  | [] => ([], LoopRes.exhausted)
  | u :: _rest =>
      match net u with
      | some c => ([Ev.netFetch u], LoopRes.success c)
      | none => ([Ev.netFetch u], LoopRes.attrError)

/-- Body of `_cached_download` after the cache-hit check: normalise the URL
argument, run the download loop, then verify the digest of the freshly
written destination file.  `evs0` holds the events of the cache-hit check.
On a transfer failure the destination file is left as it was. -/
def cachedDownloadFetch (hash : Content → String)
    (net : String → Option Content) (url : UrlArg) (md5 : String)
    (dst : String) (w : World) (evs0 : List Ev) :
    World × List Ev × Except DlErr Unit :=
  let urls := normalizeUrl url
  match tryUrls net urls with
  | (evs, LoopRes.attrError) =>
      (w, evs0 ++ evs, Except.error DlErr.attributeError)
  | (evs, LoopRes.exhausted) =>
      (w, evs0 ++ evs, Except.error (DlErr.runtimeTransferError urls))
  | (evs, LoopRes.success c) =>
      let w' := writeFile w dst c
      let dst_md5 := hash c
      if dst_md5 = md5 then
        (w', evs0 ++ evs ++ [Ev.md5calc dst], Except.ok ())
      else
        (w', evs0 ++ evs ++ [Ev.md5calc dst],
          Except.error (DlErr.runtimeMd5Error md5 dst_md5))

/-- Embedding of `_cached_download(url, md5, dst)`.  If `dst` is a file
whose digest equals `md5`, return at once; otherwise download.  The
short-circuiting `and` means the digest is computed only when
`os.path.isfile(dst)` holds. -/
def _cached_download (hash : Content → String)
    (net : String → Option Content) (url : UrlArg) (md5 : String)
    (dst : String) (w : World) : World × List Ev × Except DlErr Unit :=
  match w.files dst with
  | some c0 =>
      if hash c0 = md5 then (w, [Ev.md5calc dst], Except.ok ())
      else cachedDownloadFetch hash net url md5 dst w [Ev.md5calc dst]
  | none => cachedDownloadFetch hash net url md5 dst w []

/-- Embedding of `_get_cache_path()`:
`os.path.join(os.getcwd(), 'catboost_cached_datasets')`. -/
def _get_cache_path (w : World) : String :=
  joinPath w.cwd "catboost_cached_datasets"

/-- Errors with which `_cached_dataset_load` can abort. -/
inductive LoadErr where
  | dlErr (e : DlErr)
  | dirErr (e : Nat)
  | extractErr
  | readErr (p : String)
deriving DecidableEq, Repr

/-- Embedding of the two `pd.read_csv` calls ending `_cached_dataset_load`:
read the train file, then the test file, and return their raw contents (the
data handed to the parser); a missing file aborts as `read_csv` would. -/
def readBoth (w : World) (evs : List Ev) (train_path test_path : String) :
    World × List Ev × Except LoadErr (Content × Content) :=
  match w.files train_path with
  | none => (w, evs ++ [Ev.parseEv train_path],
      Except.error (LoadErr.readErr train_path))
  | some tc =>
      match w.files test_path with
      | none => (w, evs ++ [Ev.parseEv train_path, Ev.parseEv test_path],
          Except.error (LoadErr.readErr test_path))
      | some sc => (w, evs ++ [Ev.parseEv train_path, Ev.parseEv test_path],
          Except.ok (tc, sc))

/-- Embedding of `_cached_dataset_load(url, md5, dataset_name, train_file,
test_file, header)`.  `mk` is the behaviour of the single `os.makedirs`
call, `tmpPath` the fresh path handed out by `tempfile.mkstemp` (created as
an empty file), `tar` the extraction primitive.  The `header` argument only
parameterises `pd.read_csv` and does not affect which file contents are
read, so it is not modelled.  The `try`/`finally` around download+extract
removes the temporary file on every exit path. -/
def _cached_dataset_load (hash : Content → String)
    (net : String → Option Content)
    (tar : World → String → World × Except Unit Unit)
    (mk : MakedirsSpec) (tmpPath : String) (url : UrlArg) (md5 : String)
    (dataset_name train_file test_file : String) (w : World) :
    World × List Ev × Except LoadErr (Content × Content) :=
  let dir_path := joinPath (_get_cache_path w) dataset_name
  let train_path := joinPath dir_path train_file
  let test_path := joinPath dir_path test_file
  if pathExists w train_path && pathExists w test_path then
    readBoth w [] train_path test_path
  else
    match _ensure_dir_exists mk w dir_path with
    | (_, evs1, Except.error e) => (w, evs1, Except.error (LoadErr.dirErr e))
    | (w1, evs1, Except.ok ()) =>
        let w2 := writeFile w1 tmpPath []
        let evs2 := evs1 ++ [Ev.mkstempEv tmpPath]
        match _cached_download hash net url md5 tmpPath w2 with
        | (w3, evs3, Except.error e) =>
            (removeFile w3 tmpPath, evs2 ++ evs3 ++ [Ev.removeEv tmpPath],
              Except.error (LoadErr.dlErr e))
        | (w3, evs3, Except.ok ()) =>
            match _extract tar w3 tmpPath dir_path with
            | (w4, evs4, Except.error ()) =>
                (removeFile w4 tmpPath,
                  evs2 ++ evs3 ++ evs4 ++ [Ev.removeEv tmpPath],
                  Except.error LoadErr.extractErr)
            | (w4, evs4, Except.ok ()) =>
                readBoth (removeFile w4 tmpPath)
                  (evs2 ++ evs3 ++ evs4 ++ [Ev.removeEv tmpPath])
                  train_path test_path

/-- Python's slice `s[:-1]`: the string without its last character (the
empty string for an empty input). -/
def pySliceDropLast (s : String) : String := String.mk s.data.dropLast

/-- The first `n` iterations of the fix-up loop in `adult()`:
`for i in range(n): xs[i] = xs[i][:-1]` — an index-wise in-place update that
reads the current cell and writes back its slice. -/
def incomeFixAux (xs : List String) : Nat → List String
  | 0 => xs
  | n + 1 =>
      let ys := incomeFixAux xs n
      ys.set n (pySliceDropLast (ys.getD n ""))

/-- The whole fix-up loop of `adult()` over the `income` column:
`for i in range(test_df.income.size): test_df.income[i] = test_df.income[i][:-1]`. -/
def incomeFixLoop (xs : List String) : List String :=
  incomeFixAux xs xs.length

/-- The pair of parsed tables `adult()` holds right before its fix-up loop,
as column-name-indexed string columns. -/
structure AdultFrames where
  train : String → List String
  test : String → List String

/-- Embedding of the post-parse mutation performed by `adult()`: the loop
rewrites `test_df.income` cell by cell and touches nothing else. -/
def adultFixTest (t : AdultFrames) : AdultFrames :=
  { t with
    test := fun col =>
      if col = "income" then incomeFixLoop (t.test "income")
      else t.test col }

/-- Predicate picking out the network-fetch events of a trace. -/
def isNetFetchEv : Ev → Bool
  | Ev.netFetch _ => true
  | _ => false

/-- A world with no files, no directories and a fixed working directory,
used to instantiate the theorems at concrete inputs. -/
def emptyWorld : World :=
  { files := fun _ => none, dirs := fun _ => false, cwd := "/home" }

/-- A concrete stand-in for the MD5 digest: the decimal length of the
content. -/
def hashLen : Content → String := fun c => toString c.length

/-- A world whose only file is a one-byte file at `dst`. -/
def wC1 : World :=
  { files := fun p => if p = "dst" then some [7] else none,
    dirs := fun _ => false, cwd := "/home" }

/-- C1: when the destination file exists and its digest equals the expected
checksum, `_cached_download` returns at once — the world is unchanged, the
trace holds no network fetch, and calling it again from the resulting world
gives the same result (a no-op). -/
theorem cached_download_cache_hit (hash : Content → String)
    (net : String → Option Content) (url : UrlArg) (md5 dst : String)
    (w : World) (c : Content) (hfile : w.files dst = some c)
    (hmd5 : hash c = md5) :
    _cached_download hash net url md5 dst w
      = (w, [Ev.md5calc dst], Except.ok ())
    ∧ (∀ u, Ev.netFetch u ∉ (_cached_download hash net url md5 dst w).2.1)
    ∧ _cached_download hash net url md5 dst
        (_cached_download hash net url md5 dst w).1
      = (w, [Ev.md5calc dst], Except.ok ()) := by
  have h1 : _cached_download hash net url md5 dst w
      = (w, [Ev.md5calc dst], Except.ok ()) := by
    unfold _cached_download
    rw [hfile]
    simp [hmd5]
  refine ⟨h1, ?_, ?_⟩
  · rw [h1]
    intro u
    simp
  · rw [h1]
    exact h1

/-- Closed instance of `cached_download_cache_hit` at a concrete world whose
cached file already matches the checksum. -/
theorem cached_download_cache_hit_witness :
    _cached_download hashLen (fun _ => none) (UrlArg.single "u") "1" "dst"
        wC1
      = (wC1, [Ev.md5calc "dst"], Except.ok ()) :=
  (cached_download_cache_hit hashLen (fun _ => none) (UrlArg.single "u")
    "1" "dst" wC1 [7] rfl rfl).1

/-- C7: `_extract` leaves the current working directory exactly as it found
it, for every extraction primitive `tar` (succeeding or failing) and also
when the initial change of directory itself fails. -/
theorem extract_restores_cwd
    (tar : World → String → World × Except Unit Unit) (w : World)
    (src_file dst_dir : String) :
    ((_extract tar w src_file dst_dir).1).cwd = w.cwd := by
  unfold _extract
  split
  · rfl
  · rfl

/-- C9: `_ensure_dir_exists` swallows a creation error exactly when the path
is a directory after the failed call, re-raises the very same error
otherwise, and whenever it returns normally the directory exists. -/
theorem ensure_dir_exists_spec (mk : MakedirsSpec) (w : World) (p : String) :
    (∀ e, mk.result = some e →
      (mk.isDirAfter = true →
        (_ensure_dir_exists mk w p).2.2 = Except.ok ())
      ∧ (mk.isDirAfter = false →
        (_ensure_dir_exists mk w p).2.2 = Except.error e))
    ∧ ((_ensure_dir_exists mk w p).2.2 = Except.ok () →
      ((_ensure_dir_exists mk w p).1).dirs p = true) := by
  constructor
  · intro e he
    constructor
    · intro hd
      simp [_ensure_dir_exists, he, hd]
    · intro hd
      simp [_ensure_dir_exists, he, hd]
  · intro hok
    unfold _ensure_dir_exists at hok ⊢
    cases he : mk.result with
    | none => simp [addDir]
    | some e =>
        by_cases hd : mk.isDirAfter
        · simp [hd, addDir]
        · rw [he] at hok
          simp [hd] at hok

/-- Closed instance of `ensure_dir_exists_spec`: a failed `os.makedirs` that
leaves no directory behind re-raises its own error payload. -/
theorem ensure_dir_exists_spec_witness :
    (_ensure_dir_exists ⟨some 5, false⟩ emptyWorld "d").2.2
      = Except.error 5 :=
  ((ensure_dir_exists_spec ⟨some 5, false⟩ emptyWorld "d").1 5 rfl).2 rfl

/-- C10: handing `_cached_download` a bare URL string is indistinguishable
from handing it the one-element mirror list holding that URL — same world,
same trace, same outcome. -/
theorem cached_download_single_url_normalized (hash : Content → String)
    (net : String → Option Content) (u md5 dst : String) (w : World) :
    _cached_download hash net (UrlArg.single u) md5 dst w
      = _cached_download hash net (UrlArg.mirrors [u]) md5 dst w := by
  unfold _cached_download
  cases hw : w.files dst with
  | none => rfl
  | some c0 => rfl

/-- C2: when the transfer from the head mirror succeeds but the digest of
the downloaded content differs from the expected checksum (and the
destination held no matching file), `_cached_download` aborts with the
`RuntimeError` naming the expected and the actual digest, and the trace
holds exactly one network fetch — no later mirror is attempted.  (In this
code a successful transfer can only be the first one attempted: any earlier
transfer failure aborts the whole call, see `cached_download_fallback_bug`.) -/
theorem cached_download_md5_mismatch (hash : Content → String)
    (net : String → Option Content) (url : UrlArg) (md5 dst : String)
    (w : World) (u : String) (rest : List String) (c : Content)
    (hurls : normalizeUrl url = u :: rest)
    (hnet : net u = some c)
    (hmiss : ∀ c0, w.files dst = some c0 → hash c0 ≠ md5)
    (hbad : hash c ≠ md5) :
    (_cached_download hash net url md5 dst w).2.2
      = Except.error (DlErr.runtimeMd5Error md5 (hash c))
    ∧ ((_cached_download hash net url md5 dst w).2.1).filter isNetFetchEv
      = [Ev.netFetch u] := by
  unfold _cached_download
  cases hw : w.files dst with
  | none =>
      simp only [cachedDownloadFetch, hurls, tryUrls, hnet, hbad]
      simp [isNetFetchEv, hbad]
  | some c0 =>
      have hne : ¬ hash c0 = md5 := hmiss c0 hw
      simp only [hne, if_false]
      simp only [cachedDownloadFetch, hurls, tryUrls, hnet, hbad]
      simp [isNetFetchEv, hbad]

/-- The network of the closed mismatch scenario: only `"u"` answers, with a
two-byte body. -/
def netC2 : String → Option Content :=
  fun u => if u = "u" then some [7, 7] else none

/-- Closed instance of `cached_download_md5_mismatch`: the head mirror of
`["u", "v"]` delivers content of digest `"2"` against expected `"0"`. -/
theorem cached_download_md5_mismatch_witness :
    (_cached_download hashLen netC2 (UrlArg.mirrors ["u", "v"]) "0" "d"
        emptyWorld).2.2
      = Except.error (DlErr.runtimeMd5Error "0" "2")
    ∧ ((_cached_download hashLen netC2 (UrlArg.mirrors ["u", "v"]) "0" "d"
        emptyWorld).2.1).filter isNetFetchEv
      = [Ev.netFetch "u"] :=
  cached_download_md5_mismatch hashLen netC2 (UrlArg.mirrors ["u", "v"])
    "0" "d" emptyWorld "u" ["v"] [7, 7] rfl rfl
    (fun c0 h => Option.noConfusion h) (by decide)

/-- The network of the fallback scenario: the first mirror is unreachable,
the second delivers a one-byte body whose digest matches. -/
def netC3 : String → Option Content :=
  fun u => if u = "u2" then some [5] else none

/-- C3 (bug exhibit): with mirrors `["u1", "u2"]` where `"u1"` fails and
`"u2"` would succeed with a matching digest, `_cached_download` does not
fall back — the failed transfer makes the handler clause
`except (urllib.URLError, IOError)` raise `AttributeError` (the `urllib`
module has no attribute `URLError`), so the call aborts after the single
fetch of `"u1"` and the destination is never written. -/
theorem cached_download_fallback_bug :
    _cached_download hashLen netC3 (UrlArg.mirrors ["u1", "u2"]) "1" "d"
        emptyWorld
      = (emptyWorld, [Ev.netFetch "u1"], Except.error DlErr.attributeError)
      := by
  rfl

/-- C4 (bug exhibit): with mirrors `["u1", "u2"]` that both fail,
`_cached_download` does not reach the `for`/`else` branch that would raise
`RuntimeError('failed to download from %s', urls)`: the very first transfer
failure aborts with `AttributeError` (the `urllib` module has no attribute
`URLError`), after a single fetch and with the world unchanged — so no
file with a matching digest is left at the destination, but the error is
not the documented transfer-failure error. -/
theorem cached_download_total_failure_bug :
    _cached_download hashLen (fun _ => none) (UrlArg.mirrors ["u1", "u2"])
        "1" "d" emptyWorld
      = (emptyWorld, [Ev.netFetch "u1"], Except.error DlErr.attributeError)
      := by
  rfl

/-- Parsing never changes the world. -/
theorem readBoth_fst (w : World) (evs : List Ev) (a b : String) :
    (readBoth w evs a b).1 = w := by
  unfold readBoth
  cases w.files a with
  | none => rfl
  | some tc =>
      cases w.files b with
      | none => rfl
      | some sc => rfl

/-- Parsing only appends parse events to the trace it is given. -/
theorem readBoth_evs_shape (w : World) (evs : List Ev) (a b : String)
    (e : Ev) (he : e ∈ (readBoth w evs a b).2.1) :
    e ∈ evs ∨ ∃ p, e = Ev.parseEv p := by
  unfold readBoth at he
  split at he
  · rcases List.mem_append.1 he with h | h
    · exact Or.inl h
    · exact Or.inr ⟨a, List.mem_singleton.1 h⟩
  · split at he
    · simp only [List.mem_append, List.mem_cons, List.not_mem_nil,
        or_false] at he
      rcases he with h | h | h
      · exact Or.inl h
      · exact Or.inr ⟨a, h⟩
      · exact Or.inr ⟨b, h⟩
    · simp only [List.mem_append, List.mem_cons, List.not_mem_nil,
        or_false] at he
      rcases he with h | h | h
      · exact Or.inl h
      · exact Or.inr ⟨a, h⟩
      · exact Or.inr ⟨b, h⟩

/-- Events given to parsing stay in the trace. -/
theorem readBoth_evs_mono (w : World) (evs : List Ev) (a b : String)
    (e : Ev) (he : e ∈ evs) : e ∈ (readBoth w evs a b).2.1 := by
  unfold readBoth
  cases w.files a with
  | none => exact List.mem_append_left _ he
  | some tc =>
      cases w.files b with
      | none => exact List.mem_append_left _ he
      | some sc => exact List.mem_append_left _ he

/-- The trace of `_ensure_dir_exists` is the single mkdir event. -/
theorem ensure_dir_exists_evs (mk : MakedirsSpec) (w : World) (p : String) :
    (_ensure_dir_exists mk w p).2.1 = [Ev.mkdirEv p] := by
  unfold _ensure_dir_exists
  cases mk.result with
  | none => rfl
  | some e =>
      by_cases hd : mk.isDirAfter <;> simp [hd]

/-- C5: when both expected files are already in the cache directory,
`_cached_dataset_load` leaves the world untouched, its trace is exactly the
two parse events — so no network fetch, no checksum computation, no
extraction, no temp file — and it returns the contents of the two cached
files. -/
theorem cached_dataset_load_cache_hit (hash : Content → String)
    (net : String → Option Content)
    (tar : World → String → World × Except Unit Unit)
    (mk : MakedirsSpec) (tmpPath : String) (url : UrlArg) (md5 : String)
    (dataset_name train_file test_file : String) (w : World)
    (train_path test_path : String) (tc sc : Content)
    (hT : train_path
      = joinPath (joinPath (_get_cache_path w) dataset_name) train_file)
    (hS : test_path
      = joinPath (joinPath (_get_cache_path w) dataset_name) test_file)
    (htrain : w.files train_path = some tc)
    (htest : w.files test_path = some sc) :
    _cached_dataset_load hash net tar mk tmpPath url md5 dataset_name
        train_file test_file w
      = (w, [Ev.parseEv train_path, Ev.parseEv test_path],
          Except.ok (tc, sc))
    ∧ (∀ u, Ev.netFetch u
        ∉ (_cached_dataset_load hash net tar mk tmpPath url md5 dataset_name
            train_file test_file w).2.1)
    ∧ (∀ p, Ev.md5calc p
        ∉ (_cached_dataset_load hash net tar mk tmpPath url md5 dataset_name
            train_file test_file w).2.1)
    ∧ (∀ s d, Ev.extractEv s d
        ∉ (_cached_dataset_load hash net tar mk tmpPath url md5 dataset_name
            train_file test_file w).2.1) := by
  have h1 : _cached_dataset_load hash net tar mk tmpPath url md5 dataset_name
      train_file test_file w
      = (w, [Ev.parseEv train_path, Ev.parseEv test_path],
          Except.ok (tc, sc)) := by
    simp only [_cached_dataset_load]
    rw [← hT, ← hS]
    have hex : (pathExists w train_path && pathExists w test_path) = true := by
      simp [pathExists, htrain, htest]
    rw [hex]
    simp only [readBoth, htrain, htest]
    simp
  refine ⟨h1, ?_, ?_, ?_⟩
  · intro u
    rw [h1]
    simp
  · intro p
    rw [h1]
    simp
  · intro s d
    rw [h1]
    simp

/-- A world whose cache directory for `titanic` already holds both files. -/
def wC5 : World :=
  { files := fun p =>
      if p = "/home/catboost_cached_datasets/titanic/train.csv" then some [1]
      else if p = "/home/catboost_cached_datasets/titanic/test.csv" then
        some [2]
      else none,
    dirs := fun _ => false, cwd := "/home" }

/-- Closed instance of `cached_dataset_load_cache_hit` on the pre-populated
`titanic` cache. -/
theorem cached_dataset_load_cache_hit_witness :
    _cached_dataset_load hashLen (fun _ => none)
        (fun w _ => (w, Except.ok ())) ⟨none, true⟩ "/tmp/t"
        (UrlArg.single "u") "m" "titanic" "train.csv" "test.csv" wC5
      = (wC5,
          [Ev.parseEv "/home/catboost_cached_datasets/titanic/train.csv",
           Ev.parseEv "/home/catboost_cached_datasets/titanic/test.csv"],
          Except.ok ([1], [2])) :=
  (cached_dataset_load_cache_hit hashLen (fun _ => none)
    (fun w _ => (w, Except.ok ())) ⟨none, true⟩ "/tmp/t"
    (UrlArg.single "u") "m" "titanic" "train.csv" "test.csv" wC5
    "/home/catboost_cached_datasets/titanic/train.csv"
    "/home/catboost_cached_datasets/titanic/test.csv" [1] [2]
    rfl rfl rfl rfl).1

/-- C6: whenever `_cached_dataset_load` created its temporary download file
(a mkstemp event is in the trace), a remove event for that path is in the
trace too and the final world holds no file there — covering the paths
where the download raises, where extraction raises, and where both
succeed. -/
theorem cached_dataset_load_tmp_removed (hash : Content → String)
    (net : String → Option Content)
    (tar : World → String → World × Except Unit Unit)
    (mk : MakedirsSpec) (tmpPath : String) (url : UrlArg) (md5 : String)
    (dataset_name train_file test_file : String) (w : World)
    (hstep : Ev.mkstempEv tmpPath
      ∈ (_cached_dataset_load hash net tar mk tmpPath url md5 dataset_name
          train_file test_file w).2.1) :
    Ev.removeEv tmpPath
      ∈ (_cached_dataset_load hash net tar mk tmpPath url md5 dataset_name
          train_file test_file w).2.1
    ∧ ((_cached_dataset_load hash net tar mk tmpPath url md5 dataset_name
          train_file test_file w).1).files tmpPath = none := by
  revert hstep
  simp only [_cached_dataset_load]
  split
  · intro hstep
    exfalso
    rcases readBoth_evs_shape _ _ _ _ _ hstep with h | ⟨p, h⟩
    · simp at h
    · exact absurd h (by simp)
  · split
    · rename_i w1 evs1 e heq
      intro hstep
      exfalso
      have h2 := congrArg (fun r => r.2.1) heq
      simp only [ensure_dir_exists_evs] at h2
      rw [← h2] at hstep
      simp at hstep
    · rename_i w1 evs1 heq
      split
      · rename_i w3 evs3 e hdl
        intro _
        exact ⟨by simp, by simp [removeFile]⟩
      · rename_i w3 evs3 hdl
        split
        · rename_i w4 evs4 hext
          intro _
          exact ⟨by simp, by simp [removeFile]⟩
        · rename_i w4 evs4 hext
          intro _
          refine ⟨readBoth_evs_mono _ _ _ _ _ (by simp), ?_⟩
          rw [readBoth_fst]
          simp [removeFile]

/-- Closed instance of `cached_dataset_load_tmp_removed`: an empty cache
and an unreachable network — the download step fails, yet the temporary
file is gone from the final world and its removal is on the trace. -/
theorem cached_dataset_load_tmp_removed_witness :
    Ev.removeEv "/tmp/t"
      ∈ (_cached_dataset_load hashLen (fun _ => none)
          (fun w _ => (w, Except.ok ())) ⟨none, true⟩ "/tmp/t"
          (UrlArg.single "u") "m" "titanic" "train.csv" "test.csv"
          emptyWorld).2.1
    ∧ ((_cached_dataset_load hashLen (fun _ => none)
          (fun w _ => (w, Except.ok ())) ⟨none, true⟩ "/tmp/t"
          (UrlArg.single "u") "m" "titanic" "train.csv" "test.csv"
          emptyWorld).1).files "/tmp/t" = none :=
  cached_dataset_load_tmp_removed hashLen (fun _ => none)
    (fun w _ => (w, Except.ok ())) ⟨none, true⟩ "/tmp/t"
    (UrlArg.single "u") "m" "titanic" "train.csv" "test.csv"
    emptyWorld (by decide)

/-- The first `n` iterations of the fix-up loop rewrite exactly the first
`n` cells, each to the slice of its original value. -/
theorem incomeFixAux_spec (xs : List String) :
    ∀ n, n ≤ xs.length →
      incomeFixAux xs n = (xs.take n).map pySliceDropLast ++ xs.drop n := by
  intro n
  induction n with
  | zero => intro _; simp [incomeFixAux]
  | succ m ih =>
      intro hn
      have hm : m ≤ xs.length := Nat.le_of_succ_le hn
      have hlt : m < xs.length := hn
      have hlen : ((xs.take m).map pySliceDropLast).length = m := by
        simp [Nat.min_eq_left hm]
      unfold incomeFixAux
      simp only [ih hm]
      rw [List.drop_eq_getElem_cons hlt]
      rw [List.getD_append_right _ _ _ _ (by rw [hlen])]
      rw [hlen, Nat.sub_self]
      rw [List.set_append_right _ _ (by rw [hlen])]
      rw [hlen, Nat.sub_self]
      simp only [List.getD_cons_zero, List.set_cons_zero]
      rw [← List.take_concat_get' xs m hlt, List.map_append]
      simp

/-- The fix-up loop over the whole column is the element-wise slice. -/
theorem incomeFixLoop_eq_map (xs : List String) :
    incomeFixLoop xs = xs.map pySliceDropLast := by
  unfold incomeFixLoop
  rw [incomeFixAux_spec xs xs.length le_rfl]
  simp

/-- C8: the fix-up in `adult()` leaves the train table alone, leaves every
test column other than `income` alone, and replaces every cell of the test
`income` column by the parsed raw value shorn of its trailing character —
`pySliceDropLast` removes exactly one trailing character from any non-empty
value. -/
theorem adult_income_fixup (t : AdultFrames) :
    (adultFixTest t).train = t.train
    ∧ (∀ col, col ≠ "income" → (adultFixTest t).test col = t.test col)
    ∧ (adultFixTest t).test "income" = (t.test "income").map pySliceDropLast
    ∧ (∀ s : String, s.data ≠ [] →
        (∃ c, s.data = (pySliceDropLast s).data ++ [c])
        ∧ (pySliceDropLast s).data.length + 1 = s.data.length) := by
  refine ⟨rfl, ?_, ?_, ?_⟩
  · intro col hc
    simp [adultFixTest, hc]
  · simp [adultFixTest, incomeFixLoop_eq_map]
  · intro s hs
    refine ⟨⟨s.data.getLast hs, (List.dropLast_append_getLast hs).symm⟩, ?_⟩
    have hpos : 0 < s.data.length := List.length_pos.2 hs
    show s.data.dropLast.length + 1 = s.data.length
    rw [List.length_dropLast]
    omega

/-- Concrete tables as `adult()` holds them right after parsing: the test
labels still carry their trailing dot. -/
def adultSampleFrames : AdultFrames :=
  { train := fun _ => ["t"],
    test := fun col =>
      if col = "income" then ["<=50K.", ">50K."] else ["39"] }

/-- Closed instance of `adult_income_fixup` on `adultSampleFrames`. -/
theorem adult_income_fixup_witness :
    (adultFixTest adultSampleFrames).test "age"
      = adultSampleFrames.test "age"
    ∧ (adultFixTest adultSampleFrames).test "income" = ["<=50K", ">50K"]
    ∧ (∃ c, ("<=50K." : String).data
        = (pySliceDropLast "<=50K.").data ++ [c]) := by
  refine ⟨(adult_income_fixup adultSampleFrames).2.1 "age" (by decide),
    ?_, ?_⟩
  · rw [(adult_income_fixup adultSampleFrames).2.2.1]
    decide
  · exact ((adult_income_fixup adultSampleFrames).2.2.2 "<=50K."
      (by decide)).1

end CatboostDatasets
